import Mathlib

/-!
Verification development for the STOMP-over-WebSocket transport client
(`src/packages/realtime/WebSocketClient.ts`).  The client is embedded
shallowly: its mutable instance fields become a `Client` record, each
method becomes a function `Client → Client × List Event` where the event
list records the externally observable effects (frames written to the
socket, listener notifications, timers scheduled), and the platform
callbacks (socket open / close / message, timer expiry) become explicit
actions on a step function, giving a small labelled transition system.
-/

namespace WS

/-- ConnectionState, from `export type ConnectionState = 'disconnected' |
'connecting' | 'connected' | 'reconnecting'`. -/
inductive ConnectionState
  | disconnected
  | connecting
  | connected
  | reconnecting
deriving DecidableEq, Repr

/-- WebSocket readyState values of the platform socket object. -/
inductive ReadyState
  | CONNECTING
  | OPEN
  | CLOSING
  | CLOSED
deriving DecidableEq, Repr

/-- TokenTransport, from `export type TokenTransport = 'header' | 'query'`. -/
inductive TokenTransport
  | header
  | query
deriving DecidableEq, Repr

/-- A value passed as the `body` argument of `send` (`unknown` in the
source).  `JSON.stringify` is a platform primitive, so a non-string value
is carried together with its serialization. -/
inductive JsBody
  | str (s : String)
  | json (serialized : String)
deriving DecidableEq, Repr

/-- The text `sendMessageFrame` puts on the wire for a body:
`typeof body === 'string' ? body : JSON.stringify(body)`. -/
def JsBody.content : JsBody → String
  | JsBody.str s => s
  | JsBody.json j => j

/-- One entry of the subscription registry (`interface Subscription`); the
handler callback is identified by the entry, so it is not stored. -/
structure Subscription where
  id : String
  destination : String
deriving DecidableEq, Repr

/-- The resolved configuration (`Required<WebSocketConfig>` in the source,
after the constructor applied the `??` defaults). -/
structure ClientConfig where
  url : String
  useSockJS : Bool
  accessToken : String
  tokenTransport : TokenTransport
  autoReconnect : Bool
  reconnectDelay : Nat
  maxReconnectAttempts : Nat
  heartbeatInterval : Nat
  debug : Bool
deriving DecidableEq, Repr

/-- Constructor input `WebSocketConfig`: every option but `url` is
optional. -/
structure WebSocketConfig where
  url : String
  useSockJS : Option Bool
  accessToken : Option String
  tokenTransport : Option TokenTransport
  autoReconnect : Option Bool
  reconnectDelay : Option Nat
  maxReconnectAttempts : Option Nat
  heartbeatInterval : Option Nat
  debug : Option Bool
deriving DecidableEq, Repr

/-- The constructor's defaulting of the configuration (`config.x ?? d`). -/
def mkConfig (config : WebSocketConfig) : ClientConfig :=
  { url := config.url
    useSockJS := config.useSockJS.getD false
    accessToken := config.accessToken.getD ""
    tokenTransport := config.tokenTransport.getD TokenTransport.header
    autoReconnect := config.autoReconnect.getD true
    reconnectDelay := config.reconnectDelay.getD 3000
    maxReconnectAttempts := config.maxReconnectAttempts.getD 10
    heartbeatInterval := config.heartbeatInterval.getD 10000
    debug := config.debug.getD false }

/-- Externally observable effects of the client: frames written to the
socket, state-change and error listener notifications, message-handler
invocations, reconnect timers scheduled, heartbeat newlines sent. -/
inductive Event
  | frameSent (command : String) (headers : List (String × String)) (body : String)
  | stateChanged (s : ConnectionState)
  | errorNotified (message : String)
  | delivered (subId : String) (body : String)
  | timerScheduled (delay : Nat)
  | heartbeatSent
deriving DecidableEq, Repr

/-- The mutable instance fields of `WebSocketClient`.  `socket` is `none`
when the field is `null`, otherwise it carries the platform socket's
readyState.  The two timer fields record whether a timer is pending. -/
structure Client where
  config : ClientConfig
  socket : Option ReadyState
  state : ConnectionState
  subscriptions : List Subscription
  reconnectAttempts : Nat
  reconnectTimer : Bool
  heartbeatTimer : Bool
  messageQueue : List (String × JsBody)
deriving DecidableEq, Repr

/-- A freshly constructed client (field initializers of the class). -/
def initClient (config : WebSocketConfig) : Client :=
  { config := mkConfig config
    socket := none
    state := ConnectionState.disconnected
    subscriptions := []
    reconnectAttempts := 0
    reconnectTimer := false
    heartbeatTimer := false
    messageQueue := [] }

/-! ### JS `Map` / object helpers

The subscription registry is a JS `Map` keyed by the subscription id;
`Map.set` replaces in place when the key exists and appends otherwise,
`forEach` iterates in insertion order.  Parsed frame headers are a plain
JS object, where a repeated assignment to a key overwrites, so a lookup
returns the last value written. -/

/-- `Map.set` on the insertion-ordered registry. -/
def mapSet (subs : List Subscription) (sub : Subscription) : List Subscription :=
  if subs.any (fun s => s.id = sub.id) then
    subs.map (fun s => if s.id = sub.id then sub else s)
  else
    subs ++ [sub]

/-- `Map.get` on the registry. -/
def mapGet (subs : List Subscription) (id : String) : Option Subscription :=
  subs.find? (fun s => s.id = id)

/-- `Map.delete` on the registry. -/
def mapDelete (subs : List Subscription) (id : String) : List Subscription :=
  subs.filter (fun s => s.id ≠ id)

/-- Lookup in a JS object built by repeated `headers[key] = value`
assignments: the last write wins. -/
def objGet (headers : List (String × String)) (key : String) : Option String :=
  (headers.reverse.find? (fun kv => kv.1 = key)).map (fun kv => kv.2)

/-! ### The sanitizer's regular expressions

`sanitizeErrorMessage` chains four `String.replace(regexp, literal)` calls
with global, case-insensitive regexps.  Each regexp is a concatenation of
case-insensitive literals and character classes under `+`, `*` or `?`, so
they are embedded as a pattern datatype with a greedy backtracking
matcher, and global replacement as a left-to-right scan that restarts
after each match — the exact JS semantics for these patterns. -/

/-- The JS `\s` character class (ECMAScript WhiteSpace and
LineTerminator code points). -/
def isJsSpace (c : Char) : Bool :=
  let n := c.toNat
  n = 0x20 || n = 0x09 || n = 0x0a || n = 0x0b || n = 0x0c || n = 0x0d ||
  n = 0xa0 || n = 0x1680 || (0x2000 ≤ n && n ≤ 0x200a) || n = 0x2028 ||
  n = 0x2029 || n = 0x202f || n = 0x205f || n = 0x3000 || n = 0xfeff

/-- `[A-Za-z0-9-_=]` (the `-`, `_`, `=` are literal members). -/
def isBearerChar (c : Char) : Bool :=
  (('A' ≤ c && c ≤ 'Z') || ('a' ≤ c && c ≤ 'z') || ('0' ≤ c && c ≤ '9')
    || c = '-' || c = '_' || c = '=')

/-- `[A-Za-z0-9-_.+/=]`. -/
def isBearerTailChar (c : Char) : Bool :=
  isBearerChar c || c = '.' || c = '+' || c = '/'

/-- `[A-Za-z0-9-_=.]`. -/
def isTokenValueChar (c : Char) : Bool :=
  isBearerChar c || c = '.'

/-- `["\s:=]`. -/
def isKVSepChar (c : Char) : Bool :=
  c = '"' || isJsSpace c || c = ':' || c = '='

/-- `["']`. -/
def isQuoteChar (c : Char) : Bool :=
  c = '"' || c = '\''

/-- `[^"'\s,}]`. -/
def isValueChar (c : Char) : Bool :=
  !(c = '"' || c = '\'' || isJsSpace c || c = ',' || c = '\x7d')

/-- One element of a regular-expression pattern: a case-insensitive
literal, or a character class under a greedy `+`, `*` or `?`. -/
inductive RE
  | lit (s : String)
  | plus (cls : Char → Bool)
  | star (cls : Char → Bool)
  | opt (cls : Char → Bool)

/-- ASCII lower-casing, the `/i`-flag canonicalization for the ASCII
literals and classes used by the sanitizer. -/
def lowerAscii (c : Char) : Char :=
  if 'A' ≤ c && c ≤ 'Z' then Char.ofNat (c.toNat + 32) else c

/-- Case-insensitive character comparison. -/
def ciCharEq (a b : Char) : Bool :=
  lowerAscii a = lowerAscii b

/-- Match a case-insensitive literal at the head of the input, returning
the remaining input. -/
def litMatch : List Char → List Char → Option (List Char)
  | [], s => some s
  | _ :: _, [] => none
  | p :: ps, c :: cs => if ciCharEq p c then litMatch ps cs else none

/-- Greedy `cls*` followed by a continuation `k` (the matcher for the
rest of the pattern): consume another `cls` character first; if that
whole branch fails, stop the star here and run the continuation. -/
def starHelper (cls : Char → Bool) (k : List Char → Option Nat) : List Char → Option Nat
  | [] => k []
  | c :: cs =>
    if cls c then
      match starHelper cls k cs with
      | some n => some (n + 1)
      | none => k (c :: cs)
    else k (c :: cs)

/-- Match a pattern at the head of the input, returning the number of
characters consumed by the first match in greedy backtracking order —
the match the JS engine produces. -/
def matchSeq : List RE → List Char → Option Nat
  | [], _ => some 0
  | RE.lit w :: rest, s =>
    match litMatch w.data s with
    | some s2 =>
      match matchSeq rest s2 with
      | some n => some (w.data.length + n)
      | none => none
    | none => none
  | RE.plus cls :: rest, s =>
    match s with
    | [] => none
    | c :: cs =>
      if cls c then
        match starHelper cls (matchSeq rest) cs with
        | some n => some (n + 1)
        | none => none
      else none
  | RE.star cls :: rest, s => starHelper cls (matchSeq rest) s
  | RE.opt cls :: rest, s =>
    match s with
    | [] => matchSeq rest []
    | c :: cs =>
      if cls c then
        match matchSeq rest cs with
        | some n => some (n + 1)
        | none => matchSeq rest (c :: cs)
      else matchSeq rest (c :: cs)

/-- `String.replace` with a global regexp and a literal replacement:
scan left to right; at each position emit the replacement for the
leftmost match and resume after it, otherwise keep the character.  Each
step consumes at least one input character, so a fuel equal to the input
length suffices; the fuel-exhausted branch is unreachable from
`jsReplaceAll`.  The sanitizer's patterns all start with a nonempty
literal, so a match never has length zero. -/
def jsReplaceFuel (pat : List RE) (repl : List Char) : Nat → List Char → List Char
  | 0, s => s
  | _ + 1, [] => []
  | fuel + 1, c :: s =>
    match matchSeq pat (c :: s) with
    | some (n + 1) => repl ++ jsReplaceFuel pat repl fuel (s.drop n)
    | _ => c :: jsReplaceFuel pat repl fuel s

/-- Global regexp replacement over a character list. -/
def jsReplaceAll (pat : List RE) (repl : List Char) (s : List Char) : List Char :=
  jsReplaceFuel pat repl s.length s

/-- `/Bearer\s+[A-Za-z0-9-_=]+\.[A-Za-z0-9-_=]+\.[A-Za-z0-9-_.+/=]*/gi`. -/
def bearerPattern : List RE :=
  [RE.lit "Bearer", RE.plus isJsSpace, RE.plus isBearerChar, RE.lit ".",
   RE.plus isBearerChar, RE.lit ".", RE.star isBearerTailChar]

/-- `/password["\s:=]+["']?[^"'\s,}]+["']?/gi`. -/
def passwordPattern : List RE :=
  [RE.lit "password", RE.plus isKVSepChar, RE.opt isQuoteChar,
   RE.plus isValueChar, RE.opt isQuoteChar]

/-- `/token["\s:=]+["']?[A-Za-z0-9-_=.]+["']?/gi`. -/
def tokenPattern : List RE :=
  [RE.lit "token", RE.plus isKVSepChar, RE.opt isQuoteChar,
   RE.plus isTokenValueChar, RE.opt isQuoteChar]

/-- `/secret["\s:=]+["']?[^"'\s,}]+["']?/gi`. -/
def secretPattern : List RE :=
  [RE.lit "secret", RE.plus isKVSepChar, RE.opt isQuoteChar,
   RE.plus isValueChar, RE.opt isQuoteChar]

/-- `WebSocketClient.sanitizeErrorMessage`: the four chained
`.replace(...)` calls redacting bearer tokens and
password / token / secret key-value pairs. -/
def sanitizeErrorMessage (message : String) : String :=
  let s1 := jsReplaceAll bearerPattern ("Bearer [REDACTED]".data) message.data
  let s2 := jsReplaceAll passwordPattern ("password=[REDACTED]".data) s1
  let s3 := jsReplaceAll tokenPattern ("token=[REDACTED]".data) s2
  let s4 := jsReplaceAll secretPattern ("secret=[REDACTED]".data) s3
  String.mk s4

/-! ### Structural string splitting and joining

`data.split(sep)` and `array.join(sep)` of JS, defined by structural
recursion over the character list (the standard-library versions use
well-founded position recursion, which the kernel cannot evaluate). -/

/-- Split a character list at every occurrence of `sep`; always returns
at least one (possibly empty) piece, like JS `String.split`. -/
def jsSplitChar (sep : Char) : List Char → List (List Char)
  | [] => [[]]
  | c :: cs =>
    let r := jsSplitChar sep cs
    if c = sep then [] :: r
    else (c :: r.headD []) :: r.tail

/-- JS `s.split(sep)` for a one-character separator. -/
def jsSplit (sep : Char) (s : String) : List String :=
  (jsSplitChar sep s.data).map String.mk

/-- JS `parts.join(sep)`. -/
def jsJoin (sep : String) : List String → String
  | [] => ""
  | [s] => s
  | s :: rest => s ++ sep ++ jsJoin sep rest

/-! ### URL construction -/

/-- Characters `encodeURIComponent` leaves unescaped. -/
def isUriUnreserved (c : Char) : Bool :=
  c.isAlpha || c.isDigit || c = '-' || c = '_' || c = '.' || c = '!'
    || c = '~' || c = '*' || c = '\'' || c = '(' || c = ')'

/-- Uppercase hexadecimal digit. -/
def hexDigitChar (n : Nat) : Char :=
  if n < 10 then Char.ofNat (48 + n) else Char.ofNat (55 + n)

/-- UTF-8 encoding of one character, as byte values. -/
def utf8BytesOfChar (c : Char) : List Nat :=
  let n := c.toNat
  if n < 0x80 then [n]
  else if n < 0x800 then [0xc0 + n / 0x40, 0x80 + n % 0x40]
  else if n < 0x10000 then
    [0xe0 + n / 0x1000, 0x80 + (n / 0x40) % 0x40, 0x80 + n % 0x40]
  else
    [0xf0 + n / 0x40000, 0x80 + (n / 0x1000) % 0x40, 0x80 + (n / 0x40) % 0x40,
     0x80 + n % 0x40]

/-- Percent-encoding of one byte. -/
def percentEncodeByte (b : Nat) : List Char :=
  ['%', hexDigitChar (b / 16), hexDigitChar (b % 16)]

/-- The platform `encodeURIComponent`. -/
def encodeURIComponent (s : String) : String :=
  String.mk (s.data.foldr
    (fun c acc =>
      (if isUriUnreserved c then [c]
       else (utf8BytesOfChar c).foldr (fun b a => percentEncodeByte b ++ a) []) ++ acc)
    [])

/-- `WebSocketClient.buildUrl`: the access token is appended as an
`access_token` query parameter only in `query` token-transport mode and
only when a token is set; otherwise the configured URL is used
verbatim. -/
def buildUrl (config : ClientConfig) : String :=
  if config.tokenTransport = TokenTransport.query ∧ config.accessToken ≠ "" then
    let separator := if config.url.data.contains '?' then "&" else "?"
    config.url ++ separator ++ "access_token=" ++ encodeURIComponent config.accessToken
  else
    config.url

/-! ### Outbound frames -/

/-- `WebSocketClient.sendFrame`: silently returns unless the socket
exists and its readyState is OPEN; otherwise serializes the frame
(command line, `key:value` header lines, blank line, body, NUL) and
writes it to the socket.  The event records the frame's parts; the wire
text is their fixed serialization. -/
def sendFrame (c : Client) (command : String) (headers : List (String × String))
    (body : String) : List Event :=
  if c.socket = some ReadyState.OPEN then [Event.frameSent command headers body]
  else []

/-- The STOMP serialization `sendFrame` writes to the socket. -/
def encodeFrame (command : String) (headers : List (String × String))
    (body : String) : String :=
  command ++ "\n"
    ++ String.join (headers.map (fun kv => kv.1 ++ ":" ++ kv.2 ++ "\n"))
    ++ "\n" ++ body ++ String.mk ['\x00']

/-- The headers of the CONNECT frame (`sendConnectFrame`'s local
`headers` object): protocol version, heartbeat spec, and — whenever an
access token is set, in either token-transport mode — the
`Authorization` bearer header. -/
def connectHeaders (config : ClientConfig) : List (String × String) :=
  let headers := [("accept-version", "1.2"),
    ("heart-beat", toString config.heartbeatInterval ++ ","
      ++ toString config.heartbeatInterval)]
  if config.accessToken ≠ "" then
    headers ++ [("Authorization", "Bearer " ++ config.accessToken)]
  else headers

/-- `WebSocketClient.sendConnectFrame`. -/
def sendConnectFrame (c : Client) : List Event :=
  sendFrame c "CONNECT" (connectHeaders c.config) ""

/-- `WebSocketClient.sendDisconnectFrame`. -/
def sendDisconnectFrame (c : Client) : List Event :=
  sendFrame c "DISCONNECT" [] ""

/-- `WebSocketClient.sendSubscribeFrame`. -/
def sendSubscribeFrame (c : Client) (id destination : String) : List Event :=
  sendFrame c "SUBSCRIBE" [("id", id), ("destination", destination)] ""

/-- `WebSocketClient.sendUnsubscribeFrame`. -/
def sendUnsubscribeFrame (c : Client) (id : String) : List Event :=
  sendFrame c "UNSUBSCRIBE" [("id", id)] ""

/-- `WebSocketClient.sendMessageFrame`: a string body is sent verbatim,
any other body as its JSON serialization. -/
def sendMessageFrame (c : Client) (destination : String) (body : JsBody) : List Event :=
  sendFrame c "SEND" [("destination", destination), ("content-type", "application/json")]
    body.content

/-! ### State handling and timers -/

/-- `WebSocketClient.setState`: listeners are notified only on an actual
change. -/
def setState (c : Client) (s : ConnectionState) : Client × List Event :=
  if c.state ≠ s then ({ c with state := s }, [Event.stateChanged s])
  else (c, [])

/-- `WebSocketClient.scheduleReconnect`: a no-op while a reconnect timer
is already pending; otherwise increments the attempt counter, computes
`reconnectDelay * min(attempts, 5)`, moves to `reconnecting` and sets
the timer. -/
def scheduleReconnect (c : Client) : Client × List Event :=
  if c.reconnectTimer then (c, [])
  else
    let c1 := { c with reconnectAttempts := c.reconnectAttempts + 1 }
    let delay := c1.config.reconnectDelay * Nat.min c1.reconnectAttempts 5
    let r := setState c1 ConnectionState.reconnecting
    ({ r.1 with reconnectTimer := true }, r.2 ++ [Event.timerScheduled delay])

/-- `WebSocketClient.stopReconnect`: clears any pending reconnect timer
and resets the attempt counter to zero. -/
def stopReconnect (c : Client) : Client :=
  { c with reconnectTimer := false, reconnectAttempts := 0 }

/-- `WebSocketClient.startHeartbeat`. -/
def startHeartbeat (c : Client) : Client :=
  { c with heartbeatTimer := true }

/-- `WebSocketClient.stopHeartbeat`. -/
def stopHeartbeat (c : Client) : Client :=
  { c with heartbeatTimer := false }

/-- `WebSocketClient.handleDisconnect`: stop the heartbeat, move to
`disconnected`, and schedule a reconnect when auto-reconnect is on and
the attempt counter has not reached the configured maximum. -/
def handleDisconnect (c : Client) : Client × List Event :=
  let r := setState (stopHeartbeat c) ConnectionState.disconnected
  if r.1.config.autoReconnect ∧ r.1.reconnectAttempts < r.1.config.maxReconnectAttempts then
    let r2 := scheduleReconnect r.1
    (r2.1, r.2 ++ r2.2)
  else (r.1, r.2)

/-! ### Public operations -/

/-- `WebSocketClient.send`: queue the message while not connected,
otherwise frame and transmit it immediately. -/
def send (c : Client) (destination : String) (body : JsBody) : Client × List Event :=
  if c.state ≠ ConnectionState.connected then
    ({ c with messageQueue := c.messageQueue ++ [(destination, body)] }, [])
  else
    (c, sendMessageFrame c destination body)

/-- The loop body of `WebSocketClient.flushMessageQueue` (`while
queue.length > 0: shift and send`), with a fuel bounding the number of
iterations.  Every call site runs it with state `connected`, where
`send` never re-queues, so the initial queue length is exactly the
number of iterations the source loop performs. -/
def flushLoop : Nat → Client → Client × List Event
  | 0, c => (c, [])
  | fuel + 1, c =>
    match c.messageQueue with
    | [] => (c, [])
    | msg :: rest =>
      let r := send { c with messageQueue := rest } msg.1 msg.2
      let r2 := flushLoop fuel r.1
      (r2.1, r.2 ++ r2.2)

/-- `WebSocketClient.flushMessageQueue`. -/
def flushMessageQueue (c : Client) : Client × List Event :=
  flushLoop c.messageQueue.length c

/-- `WebSocketClient.connect`, synchronous part: a no-op (the promise
resolves immediately) when already connected or connecting; otherwise
moves to `connecting` and constructs a fresh socket, which starts in the
CONNECTING readyState, using `buildUrl` for the endpoint. -/
def connect (c : Client) : Client × List Event :=
  if c.state = ConnectionState.connected ∨ c.state = ConnectionState.connecting then
    (c, [])
  else
    let r := setState c ConnectionState.connecting
    ({ r.1 with socket := some ReadyState.CONNECTING }, r.2)

/-- `WebSocketClient.disconnect`: stop the reconnect timer (resetting
the attempt counter), stop the heartbeat, send a DISCONNECT frame and
close/null the socket when one exists, clear the subscription registry,
and settle at `disconnected`. -/
def disconnect (c : Client) : Client × List Event :=
  let c1 := stopHeartbeat (stopReconnect c)
  let r :=
    match c1.socket with
    | some _ => ({ c1 with socket := none }, sendDisconnectFrame c1)
    | none => (c1, ([] : List Event))
  let r2 := setState { r.1 with subscriptions := [] } ConnectionState.disconnected
  (r2.1, r.2 ++ r2.2)

/-- `WebSocketClient.subscribe`: registers immediately regardless of
connection state and sends a SUBSCRIBE frame only when connected.  The
generated id (`sub-` + timestamp + random suffix, a platform source of
uniqueness) is passed in explicitly. -/
def subscribe (c : Client) (id destination : String) : Client × List Event :=
  let c1 := { c with subscriptions := mapSet c.subscriptions ⟨id, destination⟩ }
  if c1.state = ConnectionState.connected then
    (c1, sendSubscribeFrame c1 id destination)
  else (c1, [])

/-- `WebSocketClient.unsubscribe`: removes the registry entry when
present, sending an UNSUBSCRIBE frame only when connected. -/
def unsubscribe (c : Client) (id : String) : Client × List Event :=
  match mapGet c.subscriptions id with
  | some _ =>
    let e := if c.state = ConnectionState.connected then sendUnsubscribeFrame c id else []
    ({ c with subscriptions := mapDelete c.subscriptions id }, e)
  | none => (c, [])

/-- `WebSocketClient.setAccessToken`. -/
def setAccessToken (c : Client) (token : String) : Client :=
  { c with config := { c.config with accessToken := token } }

/-- `WebSocketClient.getState`. -/
def getState (c : Client) : ConnectionState :=
  c.state

/-! ### Incoming frame handling -/

/-- The header-parsing loop of `handleMessage` over the lines after the
command line: stops at the first blank (or missing) line; each line is
split on `:`, the key being the part before the first colon and the
value the rest rejoined (a value may itself contain colons).  Returns
the parsed headers and the number of lines consumed. -/
def parseHeaderLines : List String → List (String × String) × Nat
  | [] => ([], 0)
  | l :: rest =>
    if l = "" then ([], 0)
    else
      let parts := jsSplit ':' l
      let kv := (parts.headD "", jsJoin ":" parts.tail)
      let (hs, n) := parseHeaderLines rest
      (kv :: hs, n + 1)

/-- `body.replace(/\0$/, '')`: strip one trailing NUL. -/
def stripTrailingNul (s : String) : String :=
  match s.data.getLast? with
  | some c => if c = '\x00' then String.mk s.data.dropLast else s
  | none => s

/-- `WebSocketClient.handleMessage`: split the socket text into lines;
line 0 is the command.  MESSAGE: parse headers, extract the body after
the blank line (trailing NUL stripped) and deliver it to the handler of
the subscription named by the `subscription` header, when registered.
CONNECTED: re-send a SUBSCRIBE frame for every registry entry in
insertion order.  ERROR: join the remaining lines, sanitize, and notify
error listeners.  Anything else is ignored. -/
def handleMessage (c : Client) (data : String) : Client × List Event :=
  let lines := jsSplit '\n' data
  let command := lines.headD ""
  if command = "MESSAGE" then
    let ph := parseHeaderLines lines.tail
    let body := stripTrailingNul (jsJoin "\n" (lines.drop (1 + ph.2 + 1)))
    match objGet ph.1 "subscription" with
    | some subscriptionId =>
      match mapGet c.subscriptions subscriptionId with
      | some sub => (c, [Event.delivered sub.id body])
      | none => (c, [])
    | none => (c, [])
  else if command = "CONNECTED" then
    (c, (c.subscriptions.map (fun sub => sendSubscribeFrame c sub.id sub.destination)).flatten)
  else if command = "ERROR" then
    (c, [Event.errorNotified (sanitizeErrorMessage (jsJoin "\n" lines.tail))])
  else
    (c, [])

/-! ### Platform callbacks -/

/-- The `socket.onopen` handler: the platform moves the firing socket to
the OPEN readyState, then the handler sends the CONNECT frame, zeroes
the attempt counter, moves to `connected`, starts the heartbeat, and
drains the outbound queue. -/
def onOpen (c : Client) : Client × List Event :=
  let c0 := { c with socket := c.socket.map (fun _ => ReadyState.OPEN) }
  let e0 := sendConnectFrame c0
  let r := setState { c0 with reconnectAttempts := 0 } ConnectionState.connected
  let r2 := flushMessageQueue (startHeartbeat r.1)
  (r2.1, e0 ++ r.2 ++ r2.2)

/-- The `socket.onclose` handler: the closing socket reaches the CLOSED
readyState and the handler runs `handleDisconnect`.  The handler stays
attached to a socket discarded by `disconnect()`, so this callback can
also fire when the client's socket field is already null. -/
def onClose (c : Client) : Client × List Event :=
  handleDisconnect { c with socket := c.socket.map (fun _ => ReadyState.CLOSED) }

/-- The `socket.onerror` handler: notifies error listeners (and rejects
the pending connect promise, which has no client-state effect). -/
def onError (c : Client) : Client × List Event :=
  (c, [Event.errorNotified "WebSocket connection failed"])

/-- Expiry of the reconnect timer: clears the timer field and calls
`connect()` again. -/
def reconnectFire (c : Client) : Client × List Event :=
  connect { c with reconnectTimer := false }

/-- One heartbeat interval tick: sends the newline keep-alive only when
the socket is open. -/
def heartbeatTick (c : Client) : Client × List Event :=
  if c.socket = some ReadyState.OPEN then (c, [Event.heartbeatSent]) else (c, [])

/-! ### The transition system -/

/-- One interaction with the client: a public method call or a platform
callback. -/
inductive Action
  | connect
  | disconnect
  | subscribe (id destination : String)
  | unsubscribe (id : String)
  | send (destination : String) (body : JsBody)
  | setAccessToken (token : String)
  | onOpen
  | onClose
  | onError
  | onMessage (data : String)
  | reconnectFire
  | heartbeatTick
deriving DecidableEq, Repr

/-- Apply one action. -/
def step (c : Client) : Action → Client × List Event
  | Action.connect => connect c
  | Action.disconnect => disconnect c
  | Action.subscribe id destination => subscribe c id destination
  | Action.unsubscribe id => unsubscribe c id
  | Action.send destination body => send c destination body
  | Action.setAccessToken token => (setAccessToken c token, [])
  | Action.onOpen => onOpen c
  | Action.onClose => onClose c
  | Action.onError => onError c
  | Action.onMessage data => handleMessage c data
  | Action.reconnectFire => reconnectFire c
  | Action.heartbeatTick => heartbeatTick c

/-- Apply a list of actions, collecting all events in order. -/
def run (c : Client) : List Action → Client × List Event
  | [] => (c, [])
  | a :: rest =>
    let r := step c a
    let r2 := run r.1 rest
    (r2.1, r.2 ++ r2.2)

/-- Which actions the single-threaded platform can actually fire in a
given client state: `open` fires only on the socket the client just
constructed (a socket discarded while CONNECTING was closed and never
opens), timers fire only while pending; everything else — including a
late `close` from a socket discarded by `disconnect()` — is always
possible. -/
def Enabled (c : Client) : Action → Prop
  | Action.onOpen => c.socket = some ReadyState.CONNECTING
  | Action.reconnectFire => c.reconnectTimer = true
  | Action.heartbeatTick => c.heartbeatTimer = true
  | _ => True

/-- The states a client can reach from construction through enabled
actions. -/
inductive Reachable : Client → Prop
  | init (config : WebSocketConfig) : Reachable (initClient config)
  | next {c : Client} (a : Action) : Reachable c → Enabled c a → Reachable (step c a).1

/-! ### Observation helpers -/

/-- The frames among a list of events carrying the given command. -/
def framesWithCommand (es : List Event) (command : String) : List Event :=
  es.filter (fun e =>
    match e with
    | Event.frameSent c2 _ _ => c2 = command
    | _ => false)

/-- The state values notified to state-change listeners, in order. -/
def stateNotifications (es : List Event) : List ConnectionState :=
  es.filterMap (fun e =>
    match e with
    | Event.stateChanged s => some s
    | _ => none)

/-- The delays of the reconnect timers scheduled, in order. -/
def scheduledDelays (es : List Event) : List Nat :=
  es.filterMap (fun e =>
    match e with
    | Event.timerScheduled d => some d
    | _ => none)

/-- Whether an action trace contains the receipt of a STOMP CONNECTED
frame. -/
def receivedConnectedFrame (actions : List Action) : Bool :=
  actions.any (fun a =>
    match a with
    | Action.onMessage data => decide ((jsSplit '\n' data).headD "" = "CONNECTED")
    | _ => false)

/-- A sequence of `send` calls, keeping only the resulting client. -/
def sendAll (c : Client) (msgs : List (String × JsBody)) : Client :=
  msgs.foldl (fun acc m => (send acc m.1 m.2).1) c

/-- The SEND frame `send` transmits for a queued message. -/
def sendEventOf (m : String × JsBody) : Event :=
  Event.frameSent "SEND" [("destination", m.1), ("content-type", "application/json")]
    m.2.content

/-! ### Concrete instances used by witnesses and counterexamples -/

/-- A constructor input with every option left to its default. -/
def cfg0 : WebSocketConfig :=
  { url := "ws://x", useSockJS := none, accessToken := none, tokenTransport := none,
    autoReconnect := none, reconnectDelay := none, maxReconnectAttempts := none,
    heartbeatInterval := none, debug := none }

/-- The configuration of P4: base reconnect delay 1000 ms. -/
def cfg1000 : WebSocketConfig :=
  { (cfg0) with reconnectDelay := some 1000 }

/-- A configuration selecting query token transport with a token set. -/
def cfgQuery : WebSocketConfig :=
  { cfg0 with accessToken := some "tok", tokenTransport := some TokenTransport.query }

/-- A client that has called `connect()` (socket constructed, state
`connecting`). -/
def cConnecting : Client :=
  (connect (initClient cfg0)).1

/-- Two messages submitted while disconnected. -/
def msgsW : List (String × JsBody) :=
  [("/app/a", JsBody.str "1"), ("/app/b", JsBody.str "2")]

/-- A connected client holding one live subscription. -/
def cSubscribed : Client :=
  (run (initClient cfg0)
    [Action.connect, Action.onOpen, Action.subscribe "sub-1" "/topic/a"]).1

/-- A connected client (connect() then the socket's open event). -/
def cConnected : Client :=
  (run (initClient cfg0) [Action.connect, Action.onOpen]).1

/-- A client two reconnect attempts in, with no timer pending. -/
def cAttempts2 : Client :=
  { (initClient cfg0) with reconnectAttempts := 2 }

/-- A client whose state says connected while its socket has already
been closed by the platform. -/
def cStaleSocket : Client :=
  { (initClient cfg0) with
    state := ConnectionState.connected
    socket := some ReadyState.CLOSED }

/-- A query-mode client whose socket is open. -/
def cQuery : Client :=
  { (initClient cfgQuery) with socket := some ReadyState.OPEN }

/-- An incoming ERROR frame carrying a bearer token. -/
def dataError : String :=
  "ERROR\nmessage:denied\n\nAuthorization: Bearer abc.def.ghi"

/-- An incoming CONNECTED frame. -/
def dataConnected : String :=
  "CONNECTED\nversion:1.2\n\n"

/-! ### Projection lemmas -/

theorem setState_state (c : Client) (s : ConnectionState) :
    (setState c s).1.state = s := by
  unfold setState
  split
  · rfl
  · rename_i h
    push_neg at h
    exact h

theorem setState_socket (c : Client) (s : ConnectionState) :
    (setState c s).1.socket = c.socket := by
  unfold setState; split <;> rfl

theorem setState_subscriptions (c : Client) (s : ConnectionState) :
    (setState c s).1.subscriptions = c.subscriptions := by
  unfold setState; split <;> rfl

theorem setState_reconnectAttempts (c : Client) (s : ConnectionState) :
    (setState c s).1.reconnectAttempts = c.reconnectAttempts := by
  unfold setState; split <;> rfl

theorem setState_messageQueue (c : Client) (s : ConnectionState) :
    (setState c s).1.messageQueue = c.messageQueue := by
  unfold setState; split <;> rfl

theorem setState_config (c : Client) (s : ConnectionState) :
    (setState c s).1.config = c.config := by
  unfold setState; split <;> rfl

theorem send_state (c : Client) (d : String) (b : JsBody) :
    (send c d b).1.state = c.state := by
  unfold send; split <;> rfl

theorem send_socket (c : Client) (d : String) (b : JsBody) :
    (send c d b).1.socket = c.socket := by
  unfold send; split <;> rfl

theorem send_subscriptions (c : Client) (d : String) (b : JsBody) :
    (send c d b).1.subscriptions = c.subscriptions := by
  unfold send; split <;> rfl

theorem send_reconnectAttempts (c : Client) (d : String) (b : JsBody) :
    (send c d b).1.reconnectAttempts = c.reconnectAttempts := by
  unfold send; split <;> rfl

theorem send_config (c : Client) (d : String) (b : JsBody) :
    (send c d b).1.config = c.config := by
  unfold send; split <;> rfl

theorem send_queued (c : Client) (d : String) (b : JsBody)
    (h : c.state ≠ ConnectionState.connected) :
    send c d b = ({ c with messageQueue := c.messageQueue ++ [(d, b)] }, []) := by
  unfold send
  rw [if_pos h]

theorem handleMessage_fst (c : Client) (data : String) :
    (handleMessage c data).1 = c := by
  unfold handleMessage
  dsimp only
  repeat' split
  all_goals rfl

theorem scheduleReconnect_subscriptions (c : Client) :
    (scheduleReconnect c).1.subscriptions = c.subscriptions := by
  unfold scheduleReconnect
  split
  · rfl
  · simp [setState_subscriptions]

theorem scheduleReconnect_state (c : Client) :
    (scheduleReconnect c).1.state = c.state ∨
      (scheduleReconnect c).1.state = ConnectionState.reconnecting := by
  unfold scheduleReconnect
  split
  · exact Or.inl rfl
  · right
    simp [setState_state]

theorem scheduleReconnect_attempts (c : Client) :
    (scheduleReconnect c).1.reconnectAttempts = c.reconnectAttempts ∨
      (scheduleReconnect c).1.reconnectAttempts = c.reconnectAttempts + 1 := by
  unfold scheduleReconnect
  split
  · exact Or.inl rfl
  · right
    simp [setState_reconnectAttempts]

theorem handleDisconnect_subscriptions (c : Client) :
    (handleDisconnect c).1.subscriptions = c.subscriptions := by
  unfold handleDisconnect
  dsimp only
  split
  · simp [scheduleReconnect_subscriptions, setState_subscriptions, stopHeartbeat]
  · simp [setState_subscriptions, stopHeartbeat]

theorem handleDisconnect_state (c : Client) :
    (handleDisconnect c).1.state = ConnectionState.disconnected ∨
      (handleDisconnect c).1.state = ConnectionState.reconnecting := by
  unfold handleDisconnect
  dsimp only
  split
  · rcases scheduleReconnect_state (setState (stopHeartbeat c) ConnectionState.disconnected).1
      with h | h
    · left
      simpa [setState_state] using h
    · right
      simpa using h
  · left
    simp [setState_state]

theorem handleDisconnect_attempts (c : Client) :
    (handleDisconnect c).1.reconnectAttempts = c.reconnectAttempts ∨
      (handleDisconnect c).1.reconnectAttempts = c.reconnectAttempts + 1 := by
  unfold handleDisconnect
  dsimp only
  split
  · rcases scheduleReconnect_attempts (setState (stopHeartbeat c) ConnectionState.disconnected).1
      with h | h
    · left
      simpa [setState_reconnectAttempts, stopHeartbeat] using h
    · right
      simpa [setState_reconnectAttempts, stopHeartbeat] using h
  · left
    simp [setState_reconnectAttempts, stopHeartbeat]

theorem connect_noop (c : Client)
    (h : c.state = ConnectionState.connected ∨ c.state = ConnectionState.connecting) :
    connect c = (c, []) := by
  unfold connect
  rw [if_pos h]

theorem connect_subscriptions (c : Client) :
    (connect c).1.subscriptions = c.subscriptions := by
  unfold connect
  split
  · rfl
  · simp [setState_subscriptions]

theorem connect_attempts (c : Client) :
    (connect c).1.reconnectAttempts = c.reconnectAttempts := by
  unfold connect
  split
  · rfl
  · simp [setState_reconnectAttempts]

theorem connect_state (c : Client) :
    (connect c).1.state = c.state ∨ (connect c).1.state = ConnectionState.connecting := by
  unfold connect
  split
  · exact Or.inl rfl
  · right
    simp [setState_state]

theorem disconnect_subscriptions (c : Client) :
    (disconnect c).1.subscriptions = [] := by
  unfold disconnect
  dsimp only
  split <;> simp [setState_subscriptions]

theorem disconnect_state (c : Client) :
    (disconnect c).1.state = ConnectionState.disconnected := by
  unfold disconnect
  dsimp only
  split <;> simp [setState_state]

theorem disconnect_attempts (c : Client) :
    (disconnect c).1.reconnectAttempts = 0 := by
  unfold disconnect
  dsimp only
  split <;> simp [setState_reconnectAttempts, stopReconnect, stopHeartbeat]

theorem flushLoop_state (n : Nat) (c : Client) :
    (flushLoop n c).1.state = c.state := by
  induction n generalizing c with
  | zero => rfl
  | succ n ih =>
    unfold flushLoop
    split
    · rfl
    · simp only []
      rw [ih, send_state]

theorem flushLoop_socket (n : Nat) (c : Client) :
    (flushLoop n c).1.socket = c.socket := by
  induction n generalizing c with
  | zero => rfl
  | succ n ih =>
    unfold flushLoop
    split
    · rfl
    · simp only []
      rw [ih, send_socket]

theorem flushLoop_attempts (n : Nat) (c : Client) :
    (flushLoop n c).1.reconnectAttempts = c.reconnectAttempts := by
  induction n generalizing c with
  | zero => rfl
  | succ n ih =>
    unfold flushLoop
    split
    · rfl
    · simp only []
      rw [ih, send_reconnectAttempts]

theorem flushLoop_subscriptions (n : Nat) (c : Client) :
    (flushLoop n c).1.subscriptions = c.subscriptions := by
  induction n generalizing c with
  | zero => rfl
  | succ n ih =>
    unfold flushLoop
    split
    · rfl
    · simp only []
      rw [ih, send_subscriptions]

/-- Singleton-producing maps flatten back to a plain map. -/
theorem flatten_map_singleton {α β : Type} (l : List α) (f : α → β) :
    (l.map (fun x => [f x])).flatten = l.map f := by
  induction l with
  | nil => rfl
  | cons x xs ih => simp [ih]

theorem sendAll_state (c : Client) (msgs : List (String × JsBody)) :
    (sendAll c msgs).state = c.state := by
  induction msgs generalizing c with
  | nil => rfl
  | cons m rest ih =>
    show (sendAll (send c m.1 m.2).1 rest).state = c.state
    rw [ih, send_state]

theorem sendAll_socket (c : Client) (msgs : List (String × JsBody)) :
    (sendAll c msgs).socket = c.socket := by
  induction msgs generalizing c with
  | nil => rfl
  | cons m rest ih =>
    show (sendAll (send c m.1 m.2).1 rest).socket = c.socket
    rw [ih, send_socket]

theorem sendAll_queue (c : Client) (msgs : List (String × JsBody))
    (h : c.state ≠ ConnectionState.connected) :
    (sendAll c msgs).messageQueue = c.messageQueue ++ msgs := by
  induction msgs generalizing c with
  | nil => simp [sendAll]
  | cons m rest ih =>
    show (sendAll (send c m.1 m.2).1 rest).messageQueue = _
    rw [send_queued c m.1 m.2 h]
    rw [ih { c with messageQueue := c.messageQueue ++ [(m.1, m.2)] } h]
    simp

theorem flushLoop_drain (q : List (String × JsBody)) (c : Client)
    (hq : c.messageQueue = q) (hs : c.state = ConnectionState.connected)
    (ho : c.socket = some ReadyState.OPEN) :
    flushLoop q.length c = ({ c with messageQueue := [] }, q.map sendEventOf) := by
  induction q generalizing c with
  | nil =>
    obtain ⟨cfg, sock, st, subs, ra, rt, ht, mq⟩ := c
    simp only at hq
    subst hq
    rfl
  | cons m rest ih =>
    have hsend : send { c with messageQueue := rest } m.1 m.2
        = ({ c with messageQueue := rest }, [sendEventOf m]) := by
      unfold send
      rw [if_neg]
      · unfold sendMessageFrame sendFrame
        rw [if_pos]
        · rfl
        · exact ho
      · intro hne
        exact hne hs
    show flushLoop (rest.length + 1) c = _
    unfold flushLoop
    rw [hq]
    dsimp only
    rw [hsend]
    rw [ih { c with messageQueue := rest } rfl hs ho]
    rfl

theorem onOpen_spec (c : Client) (rs : ReadyState)
    (hsock : c.socket = some rs) (hst : c.state ≠ ConnectionState.connected) :
    onOpen c =
      ({ c with
          socket := some ReadyState.OPEN
          reconnectAttempts := 0
          state := ConnectionState.connected
          heartbeatTimer := true
          messageQueue := [] },
       Event.frameSent "CONNECT" (connectHeaders c.config) ""
         :: Event.stateChanged ConnectionState.connected
         :: c.messageQueue.map sendEventOf) := by
  unfold onOpen
  dsimp only
  rw [hsock]
  dsimp only [Option.map]
  have hconn : sendConnectFrame { c with socket := some ReadyState.OPEN }
      = [Event.frameSent "CONNECT" (connectHeaders c.config) ""] := by
    unfold sendConnectFrame sendFrame
    rw [if_pos rfl]
  have hset : setState { c with socket := some ReadyState.OPEN, reconnectAttempts := 0 }
        ConnectionState.connected
      = ({ c with
            socket := some ReadyState.OPEN
            reconnectAttempts := 0
            state := ConnectionState.connected },
         [Event.stateChanged ConnectionState.connected]) := by
    unfold setState
    rw [if_pos]
    exact hst
  rw [hconn, hset]
  dsimp only
  unfold flushMessageQueue startHeartbeat
  dsimp only
  rw [flushLoop_drain c.messageQueue
    { c with socket := some ReadyState.OPEN, reconnectAttempts := 0, state := ConnectionState.connected, heartbeatTimer := true }
    rfl rfl rfl]
  rfl

theorem step_preserves_open (c : Client) (a : Action) (hen : Enabled c a)
    (ih : c.state = ConnectionState.connected → c.socket = some ReadyState.OPEN) :
    (step c a).1.state = ConnectionState.connected →
      (step c a).1.socket = some ReadyState.OPEN := by
  cases a with
  | connect =>
    simp only [step]
    unfold connect
    split
    · exact ih
    · dsimp only
      intro hc
      rw [setState_state] at hc
      exact absurd hc (by decide)
  | disconnect =>
    simp only [step]
    intro hc
    rw [disconnect_state] at hc
    exact absurd hc (by decide)
  | subscribe id destination =>
    simp only [step]
    unfold subscribe
    dsimp only
    split <;> exact ih
  | unsubscribe id =>
    simp only [step]
    unfold unsubscribe
    dsimp only
    split
    · exact ih
    · exact ih
  | send destination body =>
    simp only [step]
    intro hc
    rw [send_state] at hc
    rw [send_socket]
    exact ih hc
  | setAccessToken token =>
    simp only [step]
    unfold setAccessToken
    exact ih
  | onOpen =>
    simp only [Enabled] at hen
    simp only [step]
    unfold onOpen
    dsimp only
    intro _
    unfold flushMessageQueue
    rw [flushLoop_socket]
    simp only [startHeartbeat]
    rw [setState_socket]
    rw [hen]
    rfl
  | onClose =>
    simp only [step]
    intro hc
    have hd := handleDisconnect_state
      { c with socket := c.socket.map (fun _ => ReadyState.CLOSED) }
    unfold onClose at hc
    rcases hd with h | h
    · exact absurd (h.symm.trans hc) (by decide)
    · exact absurd (h.symm.trans hc) (by decide)
  | onError =>
    simp only [step]
    unfold onError
    exact ih
  | onMessage data =>
    simp only [step]
    intro hc
    rw [handleMessage_fst] at hc
    rw [handleMessage_fst]
    exact ih hc
  | reconnectFire =>
    simp only [step]
    unfold reconnectFire connect
    dsimp only
    split
    · exact ih
    · dsimp only
      intro hc
      rw [setState_state] at hc
      exact absurd hc (by decide)
  | heartbeatTick =>
    simp only [step]
    unfold heartbeatTick
    split
    · exact ih
    · exact ih

theorem handleMessage_connected_events (c : Client) (data : String)
    (hcmd : (jsSplit '\n' data).headD "" = "CONNECTED") :
    (handleMessage c data).2
      = (c.subscriptions.map
          (fun sub => sendSubscribeFrame c sub.id sub.destination)).flatten := by
  unfold handleMessage
  dsimp only
  rw [hcmd]
  rfl

theorem framesWithCommand_send_events (hs : List (String × String))
    (s : ConnectionState) (q : List (String × JsBody)) :
    framesWithCommand
      (Event.frameSent "CONNECT" hs "" :: Event.stateChanged s :: q.map sendEventOf)
      "SEND" = q.map sendEventOf := by
  unfold framesWithCommand
  simp only [List.filter_cons]
  norm_num
  apply List.filter_eq_self.mpr
  intro e he
  obtain ⟨m, hm, rfl⟩ := List.mem_map.mp he
  rfl

/-- C1: messages sent while the transport is not connected are appended to
the outbound queue in call order; on the next transition into `connected`
(the socket open handler) every queued message is transmitted as a SEND
frame in exactly that order, and the queue is left empty. -/
theorem queued_sends_flushed_in_order (c : Client) (msgs : List (String × JsBody))
    (rs : ReadyState) (hst : c.state ≠ ConnectionState.connected)
    (hsock : c.socket = some rs) :
    (sendAll c msgs).messageQueue = c.messageQueue ++ msgs ∧
    framesWithCommand (onOpen (sendAll c msgs)).2 "SEND"
      = (c.messageQueue ++ msgs).map sendEventOf ∧
    (onOpen (sendAll c msgs)).1.messageQueue = [] := by
  have hq := sendAll_queue c msgs hst
  have hs2 : (sendAll c msgs).state ≠ ConnectionState.connected := by
    rw [sendAll_state]
    exact hst
  have hk : (sendAll c msgs).socket = some rs := by
    rw [sendAll_socket]
    exact hsock
  have hspec := onOpen_spec (sendAll c msgs) rs hk hs2
  refine ⟨hq, ?_, ?_⟩
  · rw [hspec]
    dsimp only
    rw [hq]
    exact framesWithCommand_send_events _ _ _
  · rw [hspec]

/-- C2: a transient close leaves the subscription registry untouched, a
STOMP CONNECTED frame triggers exactly one SUBSCRIBE frame per registered
subscription in registry order, and an explicit `disconnect()` empties
the registry so that a later connect replays nothing. -/
theorem subscription_replay (c : Client) (data : String)
    (hsock : c.socket = some ReadyState.OPEN)
    (hcmd : (jsSplit '\n' data).headD "" = "CONNECTED") :
    (handleMessage c data).1 = c ∧
    (handleMessage c data).2
      = c.subscriptions.map (fun sub =>
          Event.frameSent "SUBSCRIBE"
            [("id", sub.id), ("destination", sub.destination)] "") ∧
    (onClose c).1.subscriptions = c.subscriptions ∧
    (disconnect c).1.subscriptions = [] ∧
    (handleMessage ((connect (disconnect c).1).1) data).2 = [] := by
  refine ⟨handleMessage_fst c data, ?_, ?_, disconnect_subscriptions c, ?_⟩
  · rw [handleMessage_connected_events c data hcmd]
    simp only [sendSubscribeFrame, sendFrame, hsock, if_pos]
    rw [flatten_map_singleton]
  · show (handleDisconnect _).1.subscriptions = c.subscriptions
    rw [handleDisconnect_subscriptions]
  · rw [handleMessage_connected_events _ data hcmd]
    have hsubs : ((connect (disconnect c).1).1).subscriptions = [] := by
      rw [connect_subscriptions, disconnect_subscriptions]
    rw [hsubs]
    rfl

/-- C3: the delay scheduled before reconnect attempt N (1-indexed) is
`reconnectDelay * min(N, 5)`; with a base delay of 1000 the delays for
attempts 1..10 are 1000,2000,3000,4000,5000,5000,5000,5000,5000,5000. -/
theorem reconnect_backoff (c : Client) (N : Nat)
    (hN : N = c.reconnectAttempts + 1) (ht : c.reconnectTimer = false) :
    scheduledDelays (scheduleReconnect c).2
      = [c.config.reconnectDelay * Nat.min N 5] ∧
    (List.range 10).map (fun k =>
        scheduledDelays
          (scheduleReconnect
            { (initClient cfg1000) with reconnectAttempts := k }).2)
      = [[1000], [2000], [3000], [4000], [5000],
         [5000], [5000], [5000], [5000], [5000]] := by
  subst hN
  constructor
  · unfold scheduleReconnect
    rw [ht]
    split
    · rename_i hfalse
      exact absurd hfalse (by decide)
    · dsimp only
      unfold setState
      split <;> simp [scheduledDelays]
  · decide

/-- C10: a `send` issued while the state reads connected but the socket
is not OPEN is silently dropped — no frame, no queueing, no error
notification, the client unchanged. -/
theorem send_not_open_drops (c : Client) (destination : String) (body : JsBody)
    (h1 : c.state = ConnectionState.connected)
    (h2 : c.socket ≠ some ReadyState.OPEN) :
    send c destination body = (c, []) := by
  unfold send
  rw [if_neg (show ¬c.state ≠ ConnectionState.connected from fun hne => hne h1)]
  unfold sendMessageFrame sendFrame
  rw [if_neg h2]

/-- C8: an incoming ERROR frame delivers to error listeners exactly the
sanitized join of its remaining lines, and the sanitizer redacts a bearer
token and a `password=` pair. -/
theorem error_frame_sanitized (c : Client) (data : String)
    (hcmd : (jsSplit '\n' data).headD "" = "ERROR") :
    (handleMessage c data).1 = c ∧
    (handleMessage c data).2
      = [Event.errorNotified (sanitizeErrorMessage
          (jsJoin "\n" (jsSplit '\n' data).tail))] ∧
    sanitizeErrorMessage "Authorization: Bearer abc.def.ghi"
      = "Authorization: Bearer [REDACTED]" ∧
    sanitizeErrorMessage "password=hunter2" = "password=[REDACTED]" := by
  refine ⟨handleMessage_fst c data, ?_, by decide, by decide⟩
  unfold handleMessage
  dsimp only
  rw [hcmd]
  rfl

/-- C4 (amended): in every reachable state, `connected` implies the
underlying socket exists and is OPEN; receipt of a STOMP CONNECTED frame
is not implied, since the transport marks itself connected already in
the socket open handler. -/
theorem connected_state_implies_socket_open (c : Client) (h : Reachable c)
    (hc : c.state = ConnectionState.connected) :
    c.socket = some ReadyState.OPEN := by
  revert hc
  induction h with
  | init config =>
    intro hc
    simp [initClient] at hc
  | next a hr hen ih =>
    exact step_preserves_open _ a hen ih

/-- C5 (amended): an unexpected close while connected (auto-reconnect on,
attempts below the maximum, no timer pending) notifies listeners of
`disconnected` and then `reconnecting`, settling in `reconnecting`. -/
theorem unexpected_close_state_sequence (c : Client)
    (h1 : c.state = ConnectionState.connected)
    (h2 : c.config.autoReconnect = true)
    (h3 : c.reconnectAttempts < c.config.maxReconnectAttempts)
    (h4 : c.reconnectTimer = false) :
    stateNotifications (onClose c).2
      = [ConnectionState.disconnected, ConnectionState.reconnecting] ∧
    (onClose c).1.state = ConnectionState.reconnecting := by
  constructor
  · simp [onClose, handleDisconnect, stopHeartbeat, setState, scheduleReconnect,
      stateNotifications, h1, h2, h3, h4]
  · simp [onClose, handleDisconnect, stopHeartbeat, setState, scheduleReconnect,
      h1, h2, h3, h4]

/-- C7 (amended): the reconnect-attempt counter is zeroed by the socket
open handler and by `disconnect()`; every other interaction leaves it
unchanged, except the close handler, which may increment it. -/
theorem attempt_counter_reset_points (c : Client) (a : Action) :
    ((a = Action.onOpen ∨ a = Action.disconnect) →
      (step c a).1.reconnectAttempts = 0) ∧
    (a ≠ Action.onOpen → a ≠ Action.disconnect →
      c.reconnectAttempts ≤ (step c a).1.reconnectAttempts) ∧
    (a ≠ Action.onOpen → a ≠ Action.disconnect → a ≠ Action.onClose →
      (step c a).1.reconnectAttempts = c.reconnectAttempts) := by
  have hunchanged : ∀ b : Action, b ≠ Action.onOpen → b ≠ Action.disconnect →
      b ≠ Action.onClose → (step c b).1.reconnectAttempts = c.reconnectAttempts := by
    intro b hb1 hb2 hb3
    cases b with
    | connect =>
      simp only [step]
      rw [connect_attempts]
    | disconnect => exact absurd rfl hb2
    | subscribe id destination =>
      simp only [step]
      unfold subscribe
      dsimp only
      split <;> rfl
    | unsubscribe id =>
      simp only [step]
      unfold unsubscribe
      dsimp only
      split <;> rfl
    | send destination body =>
      simp only [step]
      rw [send_reconnectAttempts]
    | setAccessToken token =>
      simp only [step]
      rfl
    | onOpen => exact absurd rfl hb1
    | onClose => exact absurd rfl hb3
    | onError =>
      simp only [step]
      rfl
    | onMessage data =>
      simp only [step]
      rw [handleMessage_fst]
    | reconnectFire =>
      simp only [step]
      unfold reconnectFire
      rw [connect_attempts]
    | heartbeatTick =>
      simp only [step]
      unfold heartbeatTick
      split <;> rfl
  refine ⟨?_, ?_, hunchanged a⟩
  · rintro (rfl | rfl)
    · simp only [step]
      unfold onOpen
      dsimp only
      unfold flushMessageQueue
      rw [flushLoop_attempts]
      simp only [startHeartbeat]
      rw [setState_reconnectAttempts]
    · simp only [step]
      exact disconnect_attempts c
  · intro h1 h2
    by_cases h3 : a = Action.onClose
    · subst h3
      simp only [step]
      rcases handleDisconnect_attempts
        { c with socket := c.socket.map (fun _ => ReadyState.CLOSED) } with h | h
      · rw [show (onClose c).1.reconnectAttempts = c.reconnectAttempts from h]
      · rw [show (onClose c).1.reconnectAttempts = c.reconnectAttempts + 1 from h]
        omega
    · rw [hunchanged a h1 h2 h3]


/-- C9 (amended): in query mode with a token set, the token is appended
to the URL as `access_token` and the CONNECT frame nevertheless also
carries the Authorization header (the header is added whenever a token
is set, regardless of transport mode); in header mode the URL is used
verbatim and the token appears only in the Authorization header. -/
theorem token_transport_modes (c : Client) (hs : c.socket = some ReadyState.OPEN) :
    (c.config.tokenTransport = TokenTransport.query → c.config.accessToken ≠ "" →
      buildUrl c.config
        = c.config.url ++ (if c.config.url.data.contains '?' then "&" else "?")
            ++ "access_token=" ++ encodeURIComponent c.config.accessToken ∧
      sendConnectFrame c = [Event.frameSent "CONNECT" (connectHeaders c.config) ""] ∧
      ("Authorization", "Bearer " ++ c.config.accessToken) ∈ connectHeaders c.config) ∧
    (c.config.tokenTransport = TokenTransport.header →
      buildUrl c.config = c.config.url ∧
      (c.config.accessToken ≠ "" →
        ("Authorization", "Bearer " ++ c.config.accessToken) ∈ connectHeaders c.config)) := by
  constructor
  · intro hq htok
    refine ⟨?_, ?_, ?_⟩
    · unfold buildUrl
      rw [if_pos ⟨hq, htok⟩]
    · unfold sendConnectFrame sendFrame
      rw [if_pos hs]
    · unfold connectHeaders
      rw [if_pos htok]
      simp
  · intro hh
    constructor
    · unfold buildUrl
      rw [if_neg]
      rintro ⟨hq, _⟩
      rw [hh] at hq
      cases hq
    · intro htok
      unfold connectHeaders
      rw [if_pos htok]
      simp

/-- C4 (counterexample): after `connect()` and the socket open event the
state is already `connected`, yet no STOMP CONNECTED frame has been
received on the connection. -/
theorem connected_without_connected_frame :
    (run (initClient cfg0) [Action.connect, Action.onOpen]).1.state
        = ConnectionState.connected ∧
    receivedConnectedFrame [Action.connect, Action.onOpen] = false := by decide

/-- C5 (counterexample): listeners observe
connecting, connected, disconnected, reconnecting — the claimed sequence
connecting, connected, reconnecting has an extra `disconnected`
notification in between. -/
theorem close_notifies_disconnected_between :
    stateNotifications (run (initClient cfg0)
        [Action.connect, Action.onOpen, Action.onClose]).2
      = [ConnectionState.connecting, ConnectionState.connected,
         ConnectionState.disconnected, ConnectionState.reconnecting] ∧
    stateNotifications (run (initClient cfg0)
        [Action.connect, Action.onOpen, Action.onClose]).2
      ≠ [ConnectionState.connecting, ConnectionState.connected,
         ConnectionState.reconnecting] := by decide

/-- C6: evaluation at the failing input — after an explicit
`disconnect()` the state is `disconnected`, but the close event of the
very socket `disconnect()` closed still runs the unguarded close handler,
which schedules a reconnect: the state becomes `reconnecting` with a
timer pending. -/
theorem disconnect_then_close_schedules_reconnect :
    (run (initClient cfg0)
        [Action.connect, Action.onOpen, Action.disconnect]).1.state
      = ConnectionState.disconnected ∧
    (run (initClient cfg0)
        [Action.connect, Action.onOpen, Action.disconnect, Action.onClose]).1.state
      = ConnectionState.reconnecting ∧
    (run (initClient cfg0)
        [Action.connect, Action.onOpen, Action.disconnect, Action.onClose]).1.reconnectTimer
      = true := by decide

/-- C7 (counterexample): one failed cycle leaves the counter at 1; an
explicit `disconnect()` resets it to 0 while settling at `disconnected`,
without any transition into `connected`. -/
theorem disconnect_resets_attempt_counter :
    (run (initClient cfg0)
        [Action.connect, Action.onOpen, Action.onClose]).1.reconnectAttempts = 1 ∧
    (disconnect (run (initClient cfg0)
        [Action.connect, Action.onOpen, Action.onClose]).1).1.reconnectAttempts = 0 ∧
    (disconnect (run (initClient cfg0)
        [Action.connect, Action.onOpen, Action.onClose]).1).1.state
      = ConnectionState.disconnected ∧
    ConnectionState.connected ∉
      stateNotifications (disconnect (run (initClient cfg0)
        [Action.connect, Action.onOpen, Action.onClose]).1).2 := by decide

/-- C9 (counterexample): with `tokenTransport = query` and a token set,
the token goes into the URL and the CONNECT frame emitted on open still
carries the Authorization header, contradicting the claim that query
mode produces a CONNECT frame without it. -/
theorem query_mode_connect_frame_carries_auth :
    (mkConfig cfgQuery).tokenTransport = TokenTransport.query ∧
    buildUrl (mkConfig cfgQuery) = "ws://x?access_token=tok" ∧
    (onOpen (connect (initClient cfgQuery)).1).2.head?
      = some (Event.frameSent "CONNECT"
          [("accept-version", "1.2"), ("heart-beat", "10000,10000"),
           ("Authorization", "Bearer tok")] "") := by decide

/-- C1 witness: the theorem evaluated on a connecting client and two
messages. -/
theorem queued_sends_flushed_in_order_witness :
    (sendAll cConnecting msgsW).messageQueue = cConnecting.messageQueue ++ msgsW ∧
    framesWithCommand (onOpen (sendAll cConnecting msgsW)).2 "SEND"
      = (cConnecting.messageQueue ++ msgsW).map sendEventOf ∧
    (onOpen (sendAll cConnecting msgsW)).1.messageQueue = [] :=
  queued_sends_flushed_in_order cConnecting msgsW ReadyState.CONNECTING
    (by decide) (by decide)

/-- C2 witness: the theorem evaluated on a connected client holding one
subscription and a concrete CONNECTED frame. -/
theorem subscription_replay_witness :
    (handleMessage cSubscribed dataConnected).1 = cSubscribed ∧
    (handleMessage cSubscribed dataConnected).2
      = cSubscribed.subscriptions.map (fun sub =>
          Event.frameSent "SUBSCRIBE"
            [("id", sub.id), ("destination", sub.destination)] "") ∧
    (onClose cSubscribed).1.subscriptions = cSubscribed.subscriptions ∧
    (disconnect cSubscribed).1.subscriptions = [] ∧
    (handleMessage ((connect (disconnect cSubscribed).1).1) dataConnected).2 = [] :=
  subscription_replay cSubscribed dataConnected (by decide) (by decide)

/-- C3 witness: the theorem evaluated at attempt 3. -/
theorem reconnect_backoff_witness :
    scheduledDelays (scheduleReconnect cAttempts2).2
      = [cAttempts2.config.reconnectDelay * Nat.min 3 5] ∧
    (List.range 10).map (fun k =>
        scheduledDelays
          (scheduleReconnect
            { (initClient cfg1000) with reconnectAttempts := k }).2)
      = [[1000], [2000], [3000], [4000], [5000],
         [5000], [5000], [5000], [5000], [5000]] :=
  reconnect_backoff cAttempts2 3 (by decide) (by decide)

/-- C4 witness: the amended invariant evaluated on the reachable state
after connect and socket open. -/
theorem connected_state_implies_socket_open_witness :
    cConnected.socket = some ReadyState.OPEN :=
  connected_state_implies_socket_open cConnected
    (Reachable.next Action.onOpen
      (Reachable.next Action.connect (Reachable.init cfg0) (by trivial))
      (show (step (initClient cfg0) Action.connect).1.socket
          = some ReadyState.CONNECTING by decide))
    (by decide)

/-- C5 witness: the amended sequence evaluated on a connected client. -/
theorem unexpected_close_state_sequence_witness :
    stateNotifications (onClose cConnected).2
      = [ConnectionState.disconnected, ConnectionState.reconnecting] ∧
    (onClose cConnected).1.state = ConnectionState.reconnecting :=
  unexpected_close_state_sequence cConnected (by decide) (by decide)
    (by decide) (by decide)

/-- C7 witness: the amended counter facts evaluated on a connected
client for the open, close and send interactions. -/
theorem attempt_counter_reset_points_witness :
    (step cConnected Action.onOpen).1.reconnectAttempts = 0 ∧
    cConnected.reconnectAttempts
      ≤ (step cConnected Action.onClose).1.reconnectAttempts ∧
    (step cConnected (Action.send "/app/a" (JsBody.str "x"))).1.reconnectAttempts
      = cConnected.reconnectAttempts :=
  ⟨(attempt_counter_reset_points cConnected Action.onOpen).1 (Or.inl rfl),
   (attempt_counter_reset_points cConnected Action.onClose).2.1
     (by decide) (by decide),
   (attempt_counter_reset_points cConnected
       (Action.send "/app/a" (JsBody.str "x"))).2.2
     (by decide) (by decide) (by decide)⟩

/-- C8 witness: the theorem evaluated on a concrete ERROR frame carrying
a bearer token. -/
theorem error_frame_sanitized_witness :
    (handleMessage (initClient cfg0) dataError).1 = initClient cfg0 ∧
    (handleMessage (initClient cfg0) dataError).2
      = [Event.errorNotified (sanitizeErrorMessage
          (jsJoin "\n" (jsSplit '\n' dataError).tail))] ∧
    sanitizeErrorMessage "Authorization: Bearer abc.def.ghi"
      = "Authorization: Bearer [REDACTED]" ∧
    sanitizeErrorMessage "password=hunter2" = "password=[REDACTED]" :=
  error_frame_sanitized (initClient cfg0) dataError (by decide)

/-- C9 witness: the amended statement's query-mode part evaluated on a
query-mode client with token `tok`. -/
theorem token_transport_modes_witness :
    buildUrl cQuery.config
      = cQuery.config.url
          ++ (if cQuery.config.url.data.contains '?' then "&" else "?")
          ++ "access_token=" ++ encodeURIComponent cQuery.config.accessToken ∧
    sendConnectFrame cQuery
      = [Event.frameSent "CONNECT" (connectHeaders cQuery.config) ""] ∧
    ("Authorization", "Bearer " ++ cQuery.config.accessToken)
      ∈ connectHeaders cQuery.config :=
  (token_transport_modes cQuery (by decide)).1 (by decide) (by decide)

/-- C10 witness: the theorem evaluated on a client whose state reads
connected over a closed socket. -/
theorem send_not_open_drops_witness :
    send cStaleSocket "/app/echo" (JsBody.str "x") = (cStaleSocket, []) :=
  send_not_open_drops cStaleSocket "/app/echo" (JsBody.str "x")
    (by decide) (by decide)

end WS
